import Mathlib

/-
Verification of the Braidz_GUI trajectory query pipeline and task runner
(src/main.py) against its specification.

The data model follows §3 of the spec: a Dataset is an ordered collection of
samples (obj_id, x, y, z); positions are modelled as rationals.  The three
stage functions called by MainWindow.populate_list live in the external
braid_analysis.braid_slicing module, which is not part of this repository:
those three are modelled from the spec (§4.2), while the composition in
populate_list, the Worker, the signal wiring and open_file are translated
directly from src/main.py.
-/

namespace Braidz

/-- One observation row of the loaded table: object id and x, y, z position
(src/main.py data model, spec §3 Sample). -/
structure Sample where
  obj_id : Int
  x : ℚ
  y : ℚ
  z : ℚ
deriving DecidableEq

/-- A Dataset is the ordered collection of samples, as loaded (spec §3). -/
abbrev Dataset := List Sample

/-- One of the three coordinate axes, as selected by the x/y/z checkboxes. -/
inductive Axis where
  | x
  | y
  | z
deriving DecidableEq

/-- The value of a sample on a given axis. -/
def Sample.axisVal : Axis → Sample → ℚ
  | Axis.x, r => r.x
  | Axis.y, r => r.y
  | Axis.z, r => r.z

/-- The threshold configuration held by MainWindow (min_obs, xlim, ylim,
zlim, dist, axes_to_filter in src/main.py lines 119-126; spec §3
FilterCriteria). -/
structure FilterCriteria where
  min_obs : Nat
  xlim : ℚ × ℚ
  ylim : ℚ × ℚ
  zlim : ℚ × ℚ
  axes_to_filter : List Axis
  dist : ℚ
deriving DecidableEq

/-- The distinct object ids present in a dataset, in order of first
appearance (ids are derived from presence in the Dataset, spec §4.2). -/
def objIds (df : Dataset) : List Int :=
  (df.map (fun r => r.obj_id)).dedup

/-- The samples belonging to one object id, in stored order. -/
def samplesOf (df : Dataset) (i : Int) : Dataset :=
  df.filter (fun r => decide (r.obj_id = i))

/-- Modelled from the spec: braid_slicing.get_long_obj_ids_fast_pandas is not
in this repository; per §4.2 stage 1 it computes per-obj_id sample counts
over the dataset and retains ids with count ≥ the length threshold. -/
def get_long_obj_ids_fast_pandas (df : Dataset) (length : Nat) : List Int :=
  (objIds df).filter (fun i => decide (length ≤ df.countP (fun r => decide (r.obj_id = i))))

/-- A sample lies inside the axis-aligned box, all bounds inclusive. -/
def inBox (xmin xmax ymin ymax zmin zmax : ℚ) (r : Sample) : Bool :=
  decide (xmin ≤ r.x ∧ r.x ≤ xmax ∧ ymin ≤ r.y ∧ r.y ≤ ymax ∧ zmin ≤ r.z ∧ r.z ≤ zmax)

/-- Modelled from the spec: braid_slicing.get_middle_of_tunnel_obj_ids_fast_pandas
is not in this repository; per §4.2 stage 2 it retains an id only if every
sample belonging to it lies inside the box (inclusive bounds). -/
def get_middle_of_tunnel_obj_ids_fast_pandas (df : Dataset)
    (zmin zmax ymin ymax xmin xmax : ℚ) : List Int :=
  (objIds df).filter (fun i =>
    (samplesOf df i).all (fun r => inBox xmin xmax ymin ymax zmin zmax r))

/-- The larger of two rationals, written out so that it reduces in the
kernel. -/
def qmax (a b : ℚ) : ℚ := if a ≤ b then b else a

/-- The smaller of two rationals, written out so that it reduces in the
kernel. -/
def qmin (a b : ℚ) : ℚ := if a ≤ b then a else b

/-- The extent of a list of values: max − min (spec glossary; 0 on an empty
list, which never arises for an id present in the dataset). -/
def extent (vals : List ℚ) : ℚ :=
  match vals with
  | [] => 0
  | v :: vs => vs.foldl qmax v - vs.foldl qmin v

/-- Modelled from the spec: braid_slicing.get_trajectories_that_travel_far is
not in this repository; per §4.2 stage 3 it retains an id when the extent
(max − min) of its samples on each selected axis is ≥ the distance
threshold (conjunctive across axes). -/
def get_trajectories_that_travel_far (df : Dataset) (axes : List Axis) (dist : ℚ) : List Int :=
  (objIds df).filter (fun i =>
    axes.all (fun a => decide (dist ≤ extent ((samplesOf df i).map (Sample.axisVal a)))))

/-- The pandas sub-dataframe `df[df.obj_id.isin(ids)]` used between stages
(src/main.py lines 289 and 296). -/
def restrictTo (df : Dataset) (ids : List Int) : Dataset :=
  df.filter (fun r => decide (r.obj_id ∈ ids))

/-- Stage 1 of MainWindow.populate_list (src/main.py line 282): length filter
over the full dataset. -/
def stage1 (df : Dataset) (c : FilterCriteria) : List Int :=
  get_long_obj_ids_fast_pandas df c.min_obs

/-- Stage 2 of MainWindow.populate_list (src/main.py lines 288-293): spatial
containment filter over the dataset restricted to stage-1 survivors. -/
def stage2 (df : Dataset) (c : FilterCriteria) : List Int :=
  get_middle_of_tunnel_obj_ids_fast_pandas (restrictTo df (stage1 df c))
    c.zlim.1 c.zlim.2 c.ylim.1 c.ylim.2 c.xlim.1 c.xlim.2

/-- Stage 3 of MainWindow.populate_list (src/main.py lines 295-299):
displacement filter over the dataset restricted to stage-2 survivors. -/
def stage3 (df : Dataset) (c : FilterCriteria) : List Int :=
  get_trajectories_that_travel_far (restrictTo df (stage2 df c)) c.axes_to_filter c.dist

/-- MainWindow.populate_list (src/main.py lines 277-304): the three filter
stages in sequence, the surviving ids sorted ascending for display. -/
def populate_list (df : Dataset) (c : FilterCriteria) : List Int :=
  List.insertionSort (fun a b => a ≤ b) (stage3 df c)

/-- Python exceptions relevant to the embedded code: the UnboundLocalError
raised by MainWindow.open_file when `df` is never assigned, the IndexError
raised by update_values when a findall result is empty, and load errors
raised while reading a file. -/
inductive PyExc where
  | unboundLocalError
  | indexError
  | loadError (msg : String)
deriving DecidableEq

/-- A signal emitted by a running Worker (WorkerSignals, src/main.py
lines 47-65): result carries the operation's return value, error carries the
captured exception, finished carries no data. -/
inductive Signal (α ε : Type) where
  | result (a : α)
  | error (e : ε)
  | finished
deriving DecidableEq

/-- Whether a signal is a result signal. -/
def Signal.isResult {α ε : Type} : Signal α ε → Bool
  | Signal.result _ => true
  | _ => false

/-- Whether a signal is an error signal. -/
def Signal.isError {α ε : Type} : Signal α ε → Bool
  | Signal.error _ => true
  | _ => false

/-- Whether a signal is the finished signal. -/
def Signal.isFinished {α ε : Type} : Signal α ε → Bool
  | Signal.finished => true
  | _ => false

/-- Worker.run (src/main.py lines 91-109): the wrapped operation either
raises (except branch: emit error) or returns (else branch: emit result);
the finally branch emits finished in both cases.  The value returned is the
sequence of signals emitted, in emission order. -/
def Worker.run {α ε : Type} (outcome : Except ε α) : List (Signal α ε) :=
  match outcome with
  | Except.error e => [Signal.error e, Signal.finished]
  | Except.ok a => [Signal.result a, Signal.finished]

/-- Python str.endswith, modelled on the underlying character list: the
suffix must fit and equal the final characters. -/
def endsWith (s suffix : String) : Bool :=
  decide (suffix.toList.length ≤ s.toList.length) &&
    decide (s.toList.drop (s.toList.length - suffix.toList.length) = suffix.toList)

/-- MainWindow.open_file (src/main.py lines 335-347).  The actual archive
reads are external I/O, so the two loaders are parameters; the control flow
(truthiness test on the name, the two extension branches, and the
UnboundLocalError at `return df` when no branch assigned df) is translated
from the source. -/
def open_file (loadBraidz loadH5 : String → Except PyExc Dataset)
    (file_name : String) : Except PyExc Dataset :=
  if file_name = "" then Except.error PyExc.unboundLocalError
  else if endsWith file_name ".braidz" then loadBraidz file_name
  else if endsWith file_name ".h5" then loadH5 file_name
  else Except.error PyExc.unboundLocalError

/-- The controller state touched by the load path: the current dataframe,
the current thresholds, the status line text and the object list contents
(MainWindow.__init__, src/main.py lines 113-132). -/
structure GuiState where
  df : Dataset
  criteria : FilterCriteria
  status : String
  obj_list : List Int
deriving DecidableEq

/-- MainWindow.thread_complete (src/main.py lines 328-330): sets the status
line to "Finished opening" and repopulates the list from the current
dataframe. -/
def thread_complete (st : GuiState) : GuiState :=
  { st with status := "Finished opening", obj_list := populate_list st.df st.criteria }

/-- MainWindow.get_data (src/main.py lines 332-333): stores the result as
the current dataframe. -/
def get_data (st : GuiState) (result : Dataset) : GuiState :=
  { st with df := result }

/-- The handlers connected to the worker's finished signal in
MainWindow.open_file_callback (src/main.py line 324). -/
def finished_handlers : List (GuiState → GuiState) :=
  [thread_complete]

/-- The handlers connected to the worker's result signal in
MainWindow.open_file_callback (src/main.py line 325). -/
def result_handlers : List (GuiState → Dataset → GuiState) :=
  [get_data]

/-- The handlers connected to the worker's error signal in
MainWindow.open_file_callback: the source connects none (src/main.py
lines 316-326 connect only finished and result). -/
def error_handlers : List (GuiState → PyExc → GuiState) :=
  []

/-- Delivery of one emitted signal to the controller: each handler connected
to that signal runs in connection order. -/
def deliver (st : GuiState) : Signal Dataset PyExc → GuiState
  | Signal.result d => result_handlers.foldl (fun s h => h s d) st
  | Signal.error e => error_handlers.foldl (fun s h => h s e) st
  | Signal.finished => finished_handlers.foldl (fun s h => h s) st

/-- The controller state after a load task with the given outcome has run to
completion: every signal the worker emits is delivered in order. -/
def processOutcome (st : GuiState) (outcome : Except PyExc Dataset) : GuiState :=
  (Worker.run outcome).foldl deliver st

/-- MainWindow.open_file_callback (src/main.py lines 316-326) followed by
the worker's execution: the status line is set to "Opening file...", then
the submitted open_file task runs and its signals are delivered. -/
def open_file_callback (st : GuiState) (loadBraidz loadH5 : String → Except PyExc Dataset)
    (file_name : String) : GuiState :=
  processOutcome { st with status := "Opening file..." } (open_file loadBraidz loadH5 file_name)

/-- The threshold configuration set in MainWindow.__init__ (src/main.py
lines 120-126). -/
def initial_criteria : FilterCriteria :=
  { min_obs := 1000
  , xlim := (-(1/4), 1/4)
  , ylim := (-(1/4), 1/4)
  , zlim := (0, 3/10)
  , axes_to_filter := [Axis.x, Axis.y, Axis.z]
  , dist := 0 }

/-- The controller state right after MainWindow.__init__ (src/main.py
lines 113-132): empty dataframe, initial thresholds, status "Waiting...". -/
def initial_state : GuiState :=
  { df := []
  , criteria := initial_criteria
  , status := "Waiting..."
  , obj_list := [] }

/-- The natural number denoted by a run of decimal digit characters. -/
def natOfDigits (ds : List Char) : Nat :=
  ds.foldl (fun n c => 10 * n + (c.toNat - 48)) 0

/-- The magnitude of an unsigned numeric token of the shape produced by the
pattern r'-?\d+\.?\d?' with the sign stripped: an integer part, optionally
followed by a dot and at most one fractional digit. -/
def tokenMagnitude (t : List Char) : ℚ :=
  let ip := t.takeWhile Char.isDigit
  match t.drop ip.length with
  | '.' :: fs =>
      (natOfDigits ip : ℚ) + (natOfDigits fs : ℚ) / ((10 : ℚ) ^ fs.length)
  | _ => (natOfDigits ip : ℚ)

/-- Model of fastnumbers.fast_real (an external library) on the tokens the
two threshold patterns can produce: an optional leading minus sign followed
by a numeric magnitude. -/
def fast_real (t : List Char) : ℚ :=
  match t with
  | '-' :: rest => -(tokenMagnitude rest)
  | _ => tokenMagnitude t

/-- A match of the pattern r'-?\d+\.?\d?' anchored at the start of the
character list, greedy as in Python re: one or more digits (after an
optional minus sign), then optionally a dot, then optionally one more
digit.  Returns the matched characters and the remainder, or none. -/
def matchCore (cs : List Char) : Option (List Char × List Char) :=
  let ds := cs.takeWhile Char.isDigit
  if ds.isEmpty then none
  else
    match cs.drop ds.length with
    | '.' :: c :: rest =>
        if c.isDigit then some (ds ++ ['.', c], rest)
        else some (ds ++ ['.'], c :: rest)
    | ['.'] => some (ds ++ ['.'], [])
    | other => some (ds, other)

/-- The anchored match including the optional leading minus sign; a minus
sign not followed by a digit fails, as the regex engine does after
backtracking. -/
def matchNumAt (cs : List Char) : Option (List Char × List Char) :=
  match cs with
  | '-' :: rest => (matchCore rest).map (fun p => ('-' :: p.1, p.2))
  | _ => matchCore cs

/-- re.findall for the pattern r'-?\d+\.?\d?': scan left to right, take the
leftmost anchored match, continue after it; fuelled by the input length
(every step consumes at least one character). -/
def findNumsAux : Nat → List Char → List (List Char)
  | 0, _ => []
  | _ + 1, [] => []
  | fuel + 1, c :: rest =>
    match matchNumAt (c :: rest) with
    | some (m, r) => m :: findNumsAux fuel r
    | none => findNumsAux fuel rest

/-- All matches of r'-?\d+\.?\d?' in a character list, in order. -/
def findNums (cs : List Char) : List (List Char) :=
  findNumsAux cs.length cs

/-- re.findall for the pattern r'\d+': the maximal runs of digits, in
order. -/
def findDigitRunsAux : Nat → List Char → List (List Char)
  | 0, _ => []
  | _ + 1, [] => []
  | fuel + 1, c :: rest =>
    if c.isDigit then
      ((c :: rest).takeWhile Char.isDigit)
        :: findDigitRunsAux fuel ((c :: rest).drop ((c :: rest).takeWhile Char.isDigit).length)
    else
      findDigitRunsAux fuel rest

/-- All maximal digit runs in a character list, in order. -/
def findDigitRuns (cs : List Char) : List (List Char) :=
  findDigitRunsAux cs.length cs

/-- The bounds parsing done for each limit text box in
MainWindow.update_values (src/main.py lines 268-271):
`[fast_real(i) for i in p.findall(text)]` with p = re.compile(r'-?\d+\.?\d?'). -/
def parse_bounds (s : String) : List ℚ :=
  (findNums s.toList).map fast_real

/-- The min-observations parsing in MainWindow.update_values (src/main.py
line 266): `fast_real(re.compile(r'\d+').findall(text)[0])`; the subscript
raises IndexError when findall returns no match. -/
def parse_min_obs (s : String) : Except PyExc ℚ :=
  match findDigitRuns s.toList with
  | [] => Except.error PyExc.indexError
  | t :: _ => Except.ok (fast_real t)

/-- The synthetic trajectory of spec §8: object 1 with x samples 0, 5, -3, 2
(y and z constant). -/
def exTraj : Dataset :=
  [⟨1, 0, 0, 0⟩, ⟨1, 5, 0, 0⟩, ⟨1, -3, 0, 0⟩, ⟨1, 2, 0, 0⟩]

/-- A permissive criteria set with a given displacement threshold on the x
axis only, for exercising the displacement stage. -/
def exCrit (d : ℚ) : FilterCriteria :=
  { min_obs := 0
  , xlim := (-10, 10)
  , ylim := (-10, 10)
  , zlim := (-10, 10)
  , axes_to_filter := [Axis.x]
  , dist := d }

/-- A one-sample trajectory whose x value sits exactly on the default upper
x bound (spec §8 containment boundary case). -/
def bdTraj : Dataset :=
  [⟨7, 1/4, 0, 1/10⟩]

/-- The default bounds with min_obs lowered to 1, so the boundary trajectory
survives the length stage. -/
def bdCrit : FilterCriteria :=
  { initial_criteria with min_obs := 1 }

/-- A criteria set violating the FilterCriteria invariant: the x bound pair
has min = 1 > 0 = max. -/
def badCrit : FilterCriteria :=
  { min_obs := 0
  , xlim := (1, 0)
  , ylim := (-10, 10)
  , zlim := (-10, 10)
  , axes_to_filter := [Axis.x]
  , dist := 0 }

/-- Membership in objIds is presence of a sample with that id. -/
theorem mem_objIds {df : Dataset} {i : Int} :
    i ∈ objIds df ↔ ∃ r ∈ df, r.obj_id = i := by
  simp [objIds, List.mem_dedup, List.mem_map]

/-- Restricting to a set of ids containing i does not change i's samples. -/
theorem samplesOf_restrictTo {df : Dataset} {ids : List Int} {i : Int} (h : i ∈ ids) :
    samplesOf (restrictTo df ids) i = samplesOf df i := by
  unfold samplesOf restrictTo
  rw [List.filter_filter]
  apply List.filter_congr
  intro r _
  by_cases hid : r.obj_id = i
  · simp [hid, h]
  · simp [hid]

/-- The ids present in a restricted dataset are the ids present in the
original dataset that are also in the restriction set. -/
theorem mem_objIds_restrictTo {df : Dataset} {ids : List Int} {i : Int} :
    i ∈ objIds (restrictTo df ids) ↔ i ∈ objIds df ∧ i ∈ ids := by
  constructor
  · intro h
    rcases mem_objIds.mp h with ⟨r, hr, hid⟩
    rw [restrictTo, List.mem_filter] at hr
    have hin : r.obj_id ∈ ids := of_decide_eq_true hr.2
    exact ⟨mem_objIds.mpr ⟨r, hr.1, hid⟩, hid ▸ hin⟩
  · rintro ⟨h1, h2⟩
    rcases mem_objIds.mp h1 with ⟨r, hr, hid⟩
    refine mem_objIds.mpr ⟨r, ?_, hid⟩
    rw [restrictTo, List.mem_filter]
    exact ⟨hr, decide_eq_true (hid ▸ h2)⟩

/-- Characterization of the length stage. -/
theorem mem_stage1 {df : Dataset} {c : FilterCriteria} {i : Int} :
    i ∈ stage1 df c ↔
      i ∈ objIds df ∧ c.min_obs ≤ df.countP (fun r => decide (r.obj_id = i)) := by
  simp [stage1, get_long_obj_ids_fast_pandas, List.mem_filter]

/-- Raw characterization of the spatial stage over its restricted input. -/
theorem mem_stage2_raw {df : Dataset} {c : FilterCriteria} {i : Int} :
    i ∈ stage2 df c ↔
      i ∈ objIds (restrictTo df (stage1 df c)) ∧
      ∀ r ∈ samplesOf (restrictTo df (stage1 df c)) i,
        inBox c.xlim.1 c.xlim.2 c.ylim.1 c.ylim.2 c.zlim.1 c.zlim.2 r = true := by
  simp [stage2, get_middle_of_tunnel_obj_ids_fast_pandas, List.mem_filter, List.all_eq_true]

/-- Raw characterization of the displacement stage over its restricted
input. -/
theorem mem_stage3_raw {df : Dataset} {c : FilterCriteria} {i : Int} :
    i ∈ stage3 df c ↔
      i ∈ objIds (restrictTo df (stage2 df c)) ∧
      ∀ a ∈ c.axes_to_filter,
        c.dist ≤ extent ((samplesOf (restrictTo df (stage2 df c)) i).map (Sample.axisVal a)) := by
  simp [stage3, get_trajectories_that_travel_far, List.mem_filter, List.all_eq_true]

/-- Every stage-2 survivor is present in the dataset. -/
theorem stage2_mem_objIds {df : Dataset} {c : FilterCriteria} {i : Int}
    (h : i ∈ stage2 df c) : i ∈ objIds df :=
  (mem_objIds_restrictTo.mp (mem_stage2_raw.mp h).1).1

/-- The explicit rational maximum agrees with the lattice maximum. -/
theorem qmax_eq_max (a b : ℚ) : qmax a b = max a b := (max_def a b).symm

/-- The explicit rational minimum agrees with the lattice minimum. -/
theorem qmin_eq_min (a b : ℚ) : qmin a b = min a b := (min_def a b).symm

/-- Folding qmax is folding the lattice maximum. -/
theorem foldl_qmax_eq (vs : List ℚ) : ∀ v : ℚ, vs.foldl qmax v = vs.foldl max v := by
  induction vs with
  | nil => intro v; rfl
  | cons w ws ih => intro v; rw [List.foldl_cons, List.foldl_cons, qmax_eq_max, ih]

/-- Folding qmin is folding the lattice minimum. -/
theorem foldl_qmin_eq (vs : List ℚ) : ∀ v : ℚ, vs.foldl qmin v = vs.foldl min v := by
  induction vs with
  | nil => intro v; rfl
  | cons w ws ih => intro v; rw [List.foldl_cons, List.foldl_cons, qmin_eq_min, ih]

/-- On a non-empty list the extent is the maximum minus the minimum of its
values. -/
theorem extent_eq_max_sub_min (v : ℚ) (vs : List ℚ) :
    extent (v :: vs) = vs.foldl max v - vs.foldl min v := by
  rw [extent, foldl_qmax_eq, foldl_qmin_eq]

/-- C1: for every submitted task, Worker.run delivers exactly one of a
result or an error signal followed by exactly one finished signal; a raising
operation yields exactly one error and no result, a returning operation
exactly one result and no error. -/
theorem worker_single_terminal_delivery {α ε : Type} (o : Except ε α) :
    (Worker.run o).countP Signal.isFinished = 1 ∧
    (Worker.run o).countP (fun n => n.isResult || n.isError) = 1 ∧
    (Worker.run o).getLast? = some Signal.finished ∧
    (∀ e, o = Except.error e →
      (Worker.run o).countP Signal.isError = 1 ∧
      (Worker.run o).countP Signal.isResult = 0) ∧
    (∀ a, o = Except.ok a →
      (Worker.run o).countP Signal.isResult = 1 ∧
      (Worker.run o).countP Signal.isError = 0) := by
  cases o with
  | error e =>
    refine ⟨rfl, rfl, rfl, fun e2 h => ⟨rfl, rfl⟩, fun a h => by simp at h⟩
  | ok a =>
    refine ⟨rfl, rfl, rfl, fun e h => by simp at h, fun a2 h => ⟨rfl, rfl⟩⟩

/-- Witness for C1 at a concrete raising operation. -/
theorem worker_single_terminal_delivery_witness :
    (Worker.run (Except.error PyExc.unboundLocalError : Except PyExc Dataset)).countP
        Signal.isError = 1 ∧
    (Worker.run (Except.error PyExc.unboundLocalError : Except PyExc Dataset)).countP
        Signal.isResult = 0 :=
  (worker_single_terminal_delivery (Except.error PyExc.unboundLocalError)).2.2.2.1
    PyExc.unboundLocalError rfl

/-- C2: the pipeline applies its stages in sequence, each stage consuming
the dataset restricted to the previous stage's surviving ids, and the
surviving id set never widens; the displayed list has exactly the stage-3
survivors as members. -/
theorem pipeline_narrows (df : Dataset) (c : FilterCriteria) :
    stage1 df c ⊆ objIds df ∧
    stage2 df c ⊆ stage1 df c ∧
    stage3 df c ⊆ stage2 df c ∧
    (∀ i, i ∈ populate_list df c ↔ i ∈ stage3 df c) := by
  refine ⟨?_, ?_, ?_, ?_⟩
  · intro i hi
    exact (mem_stage1.mp hi).1
  · intro i hi
    exact (mem_objIds_restrictTo.mp (mem_stage2_raw.mp hi).1).2
  · intro i hi
    exact (mem_objIds_restrictTo.mp (mem_stage3_raw.mp hi).1).2
  · intro i
    exact (List.perm_insertionSort _ _).mem_iff

/-- Witness for C2 at the concrete spec §8 trajectory and criteria. -/
theorem pipeline_narrows_witness :
    stage2 exTraj (exCrit 8) ⊆ stage1 exTraj (exCrit 8) ∧
    stage3 exTraj (exCrit 8) ⊆ stage2 exTraj (exCrit 8) :=
  ⟨(pipeline_narrows exTraj (exCrit 8)).2.1, (pipeline_narrows exTraj (exCrit 8)).2.2.1⟩

/-- C3: an id surviving the length filter survives the spatial stage exactly
when every one of its samples lies inside the box, all bounds inclusive; a
single sample outside excludes the whole trajectory. -/
theorem spatial_stage_entirely_within (df : Dataset) (c : FilterCriteria) (i : Int)
    (hi : i ∈ stage1 df c) :
    i ∈ stage2 df c ↔
      ∀ r ∈ df, r.obj_id = i →
        c.xlim.1 ≤ r.x ∧ r.x ≤ c.xlim.2 ∧
        c.ylim.1 ≤ r.y ∧ r.y ≤ c.ylim.2 ∧
        c.zlim.1 ≤ r.z ∧ r.z ≤ c.zlim.2 := by
  rw [mem_stage2_raw, samplesOf_restrictTo hi, mem_objIds_restrictTo]
  constructor
  · rintro ⟨_, hall⟩ r hr hid
    have hr2 : r ∈ samplesOf df i := by
      rw [samplesOf, List.mem_filter]
      exact ⟨hr, decide_eq_true hid⟩
    simpa [inBox] using hall r hr2
  · intro hall
    refine ⟨⟨(mem_stage1.mp hi).1, hi⟩, ?_⟩
    intro r hr
    rw [samplesOf, List.mem_filter] at hr
    have hid : r.obj_id = i := of_decide_eq_true hr.2
    simpa [inBox] using hall r hr.1 hid

unseal Rat.add Rat.sub Rat.mul Rat.inv in
/-- Witness for C3: the boundary trajectory, one sample with x exactly on
the upper x bound, survives the spatial stage. -/
theorem spatial_stage_entirely_within_witness :
    bdTraj = [⟨7, bdCrit.xlim.2, 0, 1/10⟩] ∧
    7 ∈ stage1 bdTraj bdCrit ∧ 7 ∈ stage2 bdTraj bdCrit := by
  have h1 : (7 : Int) ∈ stage1 bdTraj bdCrit := by decide
  exact ⟨by decide, h1, (spatial_stage_entirely_within bdTraj bdCrit 7 h1).mpr (by decide)⟩

unseal Rat.add Rat.sub Rat.mul Rat.inv in
/-- C4: an id surviving the spatial stage survives the displacement stage
exactly when, on each selected axis, the extent (max − min of that axis's
values over the id's samples) reaches the threshold; conjunctive across
axes, and the spec §8 example trajectory has x extent 8. -/
theorem displacement_stage_extent_conjunctive :
    (∀ v : ℚ, ∀ vs : List ℚ, extent (v :: vs) = vs.foldl max v - vs.foldl min v) ∧
    (∀ (df : Dataset) (c : FilterCriteria) (i : Int), i ∈ stage2 df c →
      (i ∈ stage3 df c ↔
        ∀ a ∈ c.axes_to_filter,
          c.dist ≤ extent ((samplesOf df i).map (Sample.axisVal a)))) ∧
    extent [0, 5, -3, 2] = 8 := by
  refine ⟨extent_eq_max_sub_min, ?_, ?_⟩
  · intro df c i hi
    rw [mem_stage3_raw, samplesOf_restrictTo hi, mem_objIds_restrictTo]
    constructor
    · rintro ⟨_, hall⟩
      exact hall
    · intro hall
      exact ⟨⟨stage2_mem_objIds hi, hi⟩, hall⟩
  · decide

unseal Rat.add Rat.sub Rat.mul Rat.inv in
/-- Witness for C4: the spec §8 trajectory passes the displacement filter at
threshold 8 on axis x and fails at threshold 8.01. -/
theorem displacement_stage_extent_conjunctive_witness :
    1 ∈ stage3 exTraj (exCrit 8) ∧ 1 ∉ stage3 exTraj (exCrit (801 / 100)) := by
  have h8 : (1 : Int) ∈ stage2 exTraj (exCrit 8) := by decide
  have h801 : (1 : Int) ∈ stage2 exTraj (exCrit (801 / 100)) := by decide
  constructor
  · exact (displacement_stage_extent_conjunctive.2.1 exTraj (exCrit 8) 1 h8).mpr (by decide)
  · intro hmem
    have hext := (displacement_stage_extent_conjunctive.2.1 exTraj
      (exCrit (801 / 100)) 1 h801).mp hmem
    revert hext
    decide

/-- C5 counterexample: the claim that the controller connects the error
signal to a handler that updates the status display is false — the source
connects no handler to the error signal, so delivering an error to the
initial controller state changes nothing, and after a failed load the
status line reads the generic "Finished opening" set by the finished
handler rather than an error report. -/
theorem error_signal_unconnected_cex :
    error_handlers = [] ∧
    deliver initial_state (Signal.error PyExc.unboundLocalError) = initial_state ∧
    (processOutcome initial_state (Except.error PyExc.unboundLocalError)).status
      = "Finished opening" :=
  ⟨rfl, rfl, rfl⟩

/-- C5 amended: for every load task that fails, the Worker does emit the
error signal, but the controller has no handler connected to it — delivering
the error signal leaves the controller state unchanged — and the status
surface ends up showing the unconditional "Finished opening" text from the
finished handler, not an error report. -/
theorem load_error_not_reported (st : GuiState) (e : PyExc) :
    error_handlers = [] ∧
    (Worker.run (Except.error e : Except PyExc Dataset)).countP Signal.isError = 1 ∧
    deliver st (Signal.error e) = st ∧
    (processOutcome st (Except.error e)).status = "Finished opening" :=
  ⟨rfl, rfl, rfl, rfl⟩

/-- C6: a failed load leaves the controller's Dataset untouched: the error
and finished paths never write df, and df is replaced exactly when a result
signal delivers the newly loaded dataset. -/
theorem failed_load_preserves_dataset (st : GuiState) (e : PyExc) (d : Dataset) :
    (processOutcome st (Except.error e)).df = st.df ∧
    (deliver st (Signal.error e)).df = st.df ∧
    (deliver st Signal.finished).df = st.df ∧
    (deliver st (Signal.result d)).df = d :=
  ⟨rfl, rfl, rfl, rfl⟩

/-- C7: the displayed id list is sorted ascending and has no duplicate
ids. -/
theorem populate_list_sorted_nodup (df : Dataset) (c : FilterCriteria) :
    List.Sorted (fun a b => a ≤ b) (populate_list df c) ∧
    (populate_list df c).Nodup := by
  constructor
  · exact List.sorted_insertionSort _ _
  · have h3 : (stage3 df c).Nodup := (List.nodup_dedup _).filter _
    exact ((List.perm_insertionSort _ _).nodup_iff).mpr h3

unseal Rat.add Rat.sub Rat.mul Rat.inv in
/-- C8 counterexample: the claim that the pipeline rejects criteria
violating the min ≤ max invariant is false — with xlim = (1, 0) on a
dataset with one in-range object, populate_list silently returns the empty
list, an ordinary QueryResult, and signals no error. -/
theorem invalid_criteria_not_rejected_cex :
    badCrit.xlim.2 < badCrit.xlim.1 ∧ populate_list exTraj badCrit = [] := by
  decide

/-- C8 amended: the pipeline performs no validation of FilterCriteria; a
bound pair with min > max flows through and silently yields the empty
result (every id with a sample is excluded by the unsatisfiable x-range),
rather than being rejected with an error. -/
theorem invalid_bounds_yield_empty (df : Dataset) (c : FilterCriteria)
    (h : c.xlim.2 < c.xlim.1) : populate_list df c = [] := by
  have h2 : stage2 df c = [] := by
    rw [stage2, get_middle_of_tunnel_obj_ids_fast_pandas]
    rw [List.filter_eq_nil_iff]
    intro i hi
    rcases mem_objIds.mp hi with ⟨r, hr, hid⟩
    have hrs : r ∈ samplesOf (restrictTo df (stage1 df c)) i := by
      rw [samplesOf, List.mem_filter]
      exact ⟨hr, decide_eq_true hid⟩
    cases hall : (samplesOf (restrictTo df (stage1 df c)) i).all
        (fun r => inBox c.xlim.1 c.xlim.2 c.ylim.1 c.ylim.2 c.zlim.1 c.zlim.2 r) with
    | false => simp
    | true =>
      exfalso
      have hbox := List.all_eq_true.mp hall r hrs
      have hx : c.xlim.1 ≤ r.x ∧ r.x ≤ c.xlim.2 := by
        have := of_decide_eq_true hbox
        exact ⟨this.1, this.2.1⟩
      exact absurd (le_trans hx.1 hx.2) (not_le.mpr h)
  have h3 : restrictTo df (stage2 df c) = [] := by
    rw [h2, restrictTo, List.filter_eq_nil_iff]
    intro r _
    simp
  rw [populate_list, stage3, h3]
  rfl

/-- Witness for C8 amended at the concrete invalid criteria. -/
theorem invalid_bounds_yield_empty_witness :
    badCrit.xlim.2 < badCrit.xlim.1 ∧ populate_list exTraj badCrit = [] :=
  ⟨by decide, invalid_bounds_yield_empty exTraj badCrit (by decide)⟩

/-- C9: open_file raises (UnboundLocalError at `return df`) for every file
name that is empty or has neither the .braidz nor the .h5 extension,
instead of returning a dataset or a constructed load-failure value. -/
theorem open_file_crashes_on_bad_name
    (loadBraidz loadH5 : String → Except PyExc Dataset) (file_name : String)
    (h : file_name = "" ∨
      (endsWith file_name ".braidz" = false ∧ endsWith file_name ".h5" = false)) :
    open_file loadBraidz loadH5 file_name = Except.error PyExc.unboundLocalError := by
  rcases h with h | ⟨h1, h2⟩
  · simp [open_file, h]
  · unfold open_file
    by_cases he : file_name = ""
    · simp [he]
    · simp [he, h1, h2]

/-- Witness for C9 at the empty name (cancelled dialog) and at a name with
an unsupported extension. -/
theorem open_file_crashes_on_bad_name_witness :
    open_file (fun _ => Except.ok []) (fun _ => Except.ok []) ""
      = Except.error PyExc.unboundLocalError ∧
    open_file (fun _ => Except.ok []) (fun _ => Except.ok []) "trajectories.csv"
      = Except.error PyExc.unboundLocalError :=
  ⟨open_file_crashes_on_bad_name _ _ _ (Or.inl rfl),
   open_file_crashes_on_bad_name _ _ _ (Or.inr ⟨by decide, by decide⟩)⟩

/-- The digit-run scanner finds nothing in a digit-free character list. -/
theorem findDigitRunsAux_eq_nil (fuel : Nat) :
    ∀ cs : List Char, (∀ c ∈ cs, c.isDigit = false) → findDigitRunsAux fuel cs = [] := by
  induction fuel with
  | zero => intro cs h; rfl
  | succ n ih =>
    intro cs h
    cases cs with
    | nil => rfl
    | cons c rest =>
      have hc : c.isDigit = false := h c (List.mem_cons_self c rest)
      rw [findDigitRunsAux, if_neg (by simp [hc])]
      exact ih rest (fun x hx => h x (List.mem_cons_of_mem c hx))

unseal Rat.add Rat.sub Rat.mul Rat.inv in
/-- C10: the threshold pattern matches at most one digit after the decimal
point, so the default bound text "[-0.25, 0.25]" parses into the four
values -0.2, 5, 0.2, 5 — a list of length 4, not the two entered bounds —
and the min-observations pattern raises IndexError on digit-free text. -/
theorem threshold_parse_mismatch :
    parse_bounds "[-0.25, 0.25]" = [-(1/5), 5, 1/5, 5] ∧
    (parse_bounds "[-0.25, 0.25]").length = 4 ∧
    parse_bounds "[-0.25, 0.25]" ≠ [-(1/4), 1/4] ∧
    (∀ s : String, (∀ c ∈ s.toList, c.isDigit = false) →
      parse_min_obs s = Except.error PyExc.indexError) := by
  refine ⟨by decide, by decide, by decide, ?_⟩
  intro s h
  unfold parse_min_obs findDigitRuns
  rw [findDigitRunsAux_eq_nil _ _ h]

/-- Witness for C10 on a concrete digit-free text. -/
theorem threshold_parse_mismatch_witness :
    parse_min_obs "observations" = Except.error PyExc.indexError :=
  threshold_parse_mismatch.2.2.2 "observations" (by decide)

end Braidz
